import Mathlib

/-!
# Dragon Watch correlation engine — formal model

A shallow embedding of the correlation engine of the Dragon Watch
repository (`src/models/threat_levels.py`, `src/utils/geo_utils.py`,
`src/processors/correlate_events.py`, `src/models/correlation.py`),
together with theorems settling the specification claims about it.

Modelling conventions:
* Python `float` arithmetic is modelled over `ℚ` (exact rationals);
  all constants involved (thresholds, weights, bounds, coordinates)
  are exactly representable.
* Python `int` is modelled as `ℤ`, event counts that arise as list
  lengths as `ℕ`.
* `dict.get(key, default)` is modelled by an `Option` field plus `getD`.
* Raised exceptions are modelled with `Except Unit`.
* The database tables are modelled as explicit lists threaded through
  the functions that the Python code runs against Supabase.
-/

namespace DragonWatch

/-! ## Threat levels (`src/models/threat_levels.py`) -/

/-- Threat level thresholds (tunable constants), lines 10-11. -/
def GREEN_THRESHOLD : ℚ := 30

/-- See `GREEN_THRESHOLD`. -/
def RED_THRESHOLD : ℚ := 70

/-- Python `class ThreatLevel(Enum)` with members GREEN = 1, AMBER = 2, RED = 3. -/
inductive ThreatLevel where
  | GREEN
  | AMBER
  | RED
deriving DecidableEq, Repr

/-- The `Enum` member values: GREEN = 1, AMBER = 2, RED = 3. -/
def ThreatLevel.value : ThreatLevel → ℕ
  | .GREEN => 1
  | .AMBER => 2
  | .RED => 3

/-- The `Enum` member names, as produced by Python's `.name`. -/
def ThreatLevel.name : ThreatLevel → String
  | .GREEN => "GREEN"
  | .AMBER => "AMBER"
  | .RED => "RED"

/-- Python `ThreatLevel[s]` (lookup by member name): `some` on the three
member names, `none` models the raised `KeyError`. -/
def ThreatLevel.fromName? (s : String) : Option ThreatLevel :=
  if s = "GREEN" then some .GREEN
  else if s = "AMBER" then some .AMBER
  else if s = "RED" then some .RED
  else none

/-- Method `ThreatLevel.can_transition_to` (threat_levels.py lines 26-36):
`return new_level.value >= self.value`. -/
def ThreatLevel.can_transition_to (self new_level : ThreatLevel) : Bool :=
  decide (new_level.value ≥ self.value)

/-- Function `determine_threat_level` (threat_levels.py lines 39-53). -/
def determine_threat_level (composite_score : ℚ) : ThreatLevel :=
  if composite_score < GREEN_THRESHOLD then .GREEN
  else if composite_score < RED_THRESHOLD then .AMBER
  else .RED

/-- The local `narrative_confidence` term of `calculate_confidence`
(threat_levels.py line 74): `min(narrative_count * 15, 40)`. -/
def narrative_confidence (narrative_count : ℤ) : ℤ :=
  min (narrative_count * 15) 40

/-- Function `calculate_confidence` (threat_levels.py lines 56-87). -/
def calculate_confidence (narrative_count movement_count : ℤ) (geo_match : Bool) : ℤ :=
  let movement_confidence := min (movement_count * 5) 30
  let geo_bonus : ℤ := if geo_match then 20 else 0
  let time_bonus : ℤ := 10
  min (narrative_confidence narrative_count + movement_confidence + geo_bonus + time_bonus) 95

/-! ## Geographic utilities (`src/utils/geo_utils.py`) -/

/-- The `TAIWAN_STRAIT_BBOX` dict (geo_utils.py lines 11-17). -/
structure RegionBBox where
  name : String
  lon_min : ℚ
  lat_min : ℚ
  lon_max : ℚ
  lat_max : ℚ
deriving DecidableEq, Repr

/-- geo_utils.py lines 11-17. -/
def TAIWAN_STRAIT_BBOX : RegionBBox :=
  { name := "Taiwan Strait"
    lon_min := 118
    lat_min := 23
    lon_max := 122
    lat_max := 26 }

/-- Shapely `box(minx, miny, maxx, maxy).contains(Point(x, y))`.
GEOS/Shapely `contains` requires the geometry to intersect the interior
of the polygon, so a point lying exactly on the rectangle's boundary is
NOT contained; containment therefore amounts to strict inequalities on
all four sides. -/
def shapelyBoxContainsPoint (minx miny maxx maxy x y : ℚ) : Bool :=
  decide (minx < x ∧ x < maxx ∧ miny < y ∧ y < maxy)

/-- Function `is_in_taiwan_strait` (geo_utils.py lines 20-40): builds the bbox
rectangle and asks Shapely whether it contains `Point(lon, lat)`. -/
def is_in_taiwan_strait (lat lon : ℚ) : Bool :=
  shapelyBoxContainsPoint TAIWAN_STRAIT_BBOX.lon_min TAIWAN_STRAIT_BBOX.lat_min
    TAIWAN_STRAIT_BBOX.lon_max TAIWAN_STRAIT_BBOX.lat_max lon lat

/-- Tests that `needle` starts the list `hay` (used to model Python's substring
membership test `needle in hay`). -/
def leadsWith : List Char → List Char → Bool
  | [], _ => true
  | _ :: _, [] => false
  | p :: ps, c :: cs => p == c && leadsWith ps cs

/-- Python `needle in hay` for strings, on the character lists. -/
def occursIn (needle : List Char) : List Char → Bool
  | [] => needle.isEmpty
  | c :: rest => leadsWith needle (c :: rest) || occursIn needle rest

/-- Function `check_narrative_geo_match` (geo_utils.py lines 43-60): falsy focus
is `False`; otherwise case-insensitive substring search for the fixed
keywords. -/
def check_narrative_geo_match (geographic_focus : Option String) : Bool :=
  match geographic_focus with
  | none => false
  | some s =>
    if s = "" then false
    else
      let focus_lower := s.toLower
      ["taiwan", "strait", "fujian"].any fun keyword =>
        occursIn keyword.toList focus_lower.toList

/-- Function `normalize_min_max` (geo_utils.py lines 63-82). -/
def normalize_min_max (value min_val max_val : ℚ) : ℚ :=
  if max_val = min_val then 50
  else max 0 (min 100 (((value - min_val) / (max_val - min_val)) * 100))

/-! ## Events and the event matcher (`src/processors/correlate_events.py`) -/

/-- A `created_at` field as `match_events_by_time_window` sees it:
`missing` covers `dict.get` returning `None` as well as the empty string
(both falsy, both hit the `if not ts_str: continue` guard);
`malformed` is a non-empty string on which `datetime.fromisoformat`
raises `ValueError`; `valid t` parses to the instant `t`, measured in
hours on an absolute scale. -/
inductive TsField where
  | missing
  | malformed
  | valid (hours : ℚ)
deriving DecidableEq, Repr

/-- A row of the `narrative_events` table, restricted to the keys the
correlation engine reads.  `Option` models a possibly missing key. -/
structure NarrativeEvent where
  id : ℤ
  created_at : TsField
  outlet_count : Option ℚ
  synchronized_phrases : Option (List String)
  geographic_focus : Option String
deriving DecidableEq, Repr

/-- A row of the `movement_events` table, restricted to the keys the
correlation engine reads. -/
structure MovementEvent where
  id : ℤ
  created_at : TsField
  location_lat : Option ℚ
  location_lon : Option ℚ
deriving DecidableEq, Repr

/-- One entry of the list returned by `match_events_by_time_window`:
the dict `{"narrative": event, "movements": [matched_events]}`. -/
structure MatchPair where
  narrative : NarrativeEvent
  movements : List MovementEvent
deriving DecidableEq, Repr

/-- correlate_events.py line 32. -/
def CORRELATION_WINDOW_HOURS : ℚ := 72

/-- The inner loop of `match_events_by_time_window` (correlate_events.py
lines 114-125): scan all movement events, skip those without a
timestamp, raise `ValueError` (modelled as `Except.error ()`) on an
unparseable one, and keep those within `window_hours` of `narr_ts`. -/
def matchMovements (narr_ts window_hours : ℚ) :
    List MovementEvent → Except Unit (List MovementEvent)
  | [] => .ok []
  | move_event :: rest =>
    match move_event.created_at with
    | .missing => matchMovements narr_ts window_hours rest
    | .malformed => .error ()
    | .valid move_ts =>
      match matchMovements narr_ts window_hours rest with
      | .error e => .error e
      | .ok ms =>
        .ok (if |narr_ts - move_ts| ≤ window_hours then move_event :: ms else ms)

/-- Function `match_events_by_time_window` (correlate_events.py lines 87-131).
A narrative event without a timestamp is skipped (`continue`); an
unparseable timestamp raises out of the function; a narrative event is
kept only if it matched at least one movement event. -/
def match_events_by_time_window :
    List NarrativeEvent → List MovementEvent → ℚ → Except Unit (List MatchPair)
  | [], _, _ => .ok []
  | narr_event :: rest, movement_events, window_hours =>
    match narr_event.created_at with
    | .missing => match_events_by_time_window rest movement_events window_hours
    | .malformed => .error ()
    | .valid narr_ts =>
      match matchMovements narr_ts window_hours movement_events with
      | .error e => .error e
      | .ok matched_movements =>
        match match_events_by_time_window rest movement_events window_hours with
        | .error e => .error e
        | .ok tail =>
          .ok (if matched_movements.isEmpty then tail
               else ⟨narr_event, matched_movements⟩ :: tail)

/-! ## Composite scorer (`src/processors/correlate_events.py`) -/

/-- The `WEIGHTS` dict (correlate_events.py line 33). -/
structure ScoreWeights where
  outlet : ℚ
  phrase : ℚ
  volume : ℚ
  geo : ℚ
deriving DecidableEq, Repr

/-- correlate_events.py line 33: `{"outlet": 0.30, "phrase": 0.25,
"volume": 0.20, "geo": 0.25}`, the decimal constants written as exact
fractions. -/
def WEIGHTS : ScoreWeights :=
  { outlet := 30/100, phrase := 25/100, volume := 20/100, geo := 25/100 }

/-- Normalization ranges (correlate_events.py lines 36-38). -/
def OUTLET_MIN : ℚ := 1

/-- See `OUTLET_MIN`. -/
def OUTLET_MAX : ℚ := 4

/-- See `OUTLET_MIN`. -/
def PHRASE_MIN : ℚ := 0

/-- See `OUTLET_MIN`. -/
def PHRASE_MAX : ℚ := 10

/-- See `OUTLET_MIN`. -/
def VOLUME_MIN : ℚ := 0

/-- See `OUTLET_MIN`. -/
def VOLUME_MAX : ℚ := 50

/-- The `SubScores` pydantic model (`src/models/correlation.py`). -/
structure SubScores where
  outlet_score : ℚ
  phrase_score : ℚ
  volume_score : ℚ
  geo_score : ℚ
deriving DecidableEq, Repr

/-- Function `calculate_composite_score` (correlate_events.py lines 134-176). -/
def calculate_composite_score (narrative_event : NarrativeEvent)
    (matched_movements : List MovementEvent) (geo_match : Bool) : ℚ × SubScores :=
  let outlet_count := narrative_event.outlet_count.getD 1
  let phrase_count : ℚ := (narrative_event.synchronized_phrases.getD []).length
  let post_volume : ℚ := matched_movements.length
  let geo_proximity : ℚ := if geo_match then 100 else 0
  let outlet_score := normalize_min_max outlet_count OUTLET_MIN OUTLET_MAX
  let phrase_score := normalize_min_max phrase_count PHRASE_MIN PHRASE_MAX
  let volume_score := normalize_min_max post_volume VOLUME_MIN VOLUME_MAX
  let geo_score := geo_proximity
  let composite :=
    outlet_score * WEIGHTS.outlet + phrase_score * WEIGHTS.phrase
      + volume_score * WEIGHTS.volume + geo_score * WEIGHTS.geo
  (composite, { outlet_score, phrase_score, volume_score, geo_score })

/-- Function `build_evidence_summary` (correlate_events.py lines 179-198). -/
def build_evidence_summary (narrative_event : NarrativeEvent)
    (matched_movements : List MovementEvent) : String :=
  let outlet_count := narrative_event.outlet_count.getD 0
  let geographic_focus := narrative_event.geographic_focus.getD "unknown region"
  let movement_count := matched_movements.length
  s!"{outlet_count} state media outlets detected coordinating on \x27{geographic_focus}\x27 themes, correlating with {movement_count} civilian movement reports in region."

/-! ## Correlation results and the alert store
(`src/models/correlation.py`, `src/processors/correlate_events.py`) -/

/-- The `CorrelationResult` pydantic model (`src/models/correlation.py`).
`detected_at` is kept on the same rational hour scale as `TsField.valid`. -/
structure CorrelationResult where
  narrative_event_ids : List ℤ
  movement_event_ids : List ℤ
  composite_score : ℚ
  sub_scores : SubScores
  threat_level : String
  confidence : ℤ
  geo_match : Bool
  region : String
  evidence_summary : String
  detected_at : ℚ
deriving DecidableEq, Repr

/-- One `detection_history` entry: `{"detected_at": ..., "score": ...,
"level": ...}` (correlate_events.py lines 221-225). -/
structure HistEntry where
  detected_at : ℚ
  score : ℚ
  level : String
deriving DecidableEq, Repr

/-- The `correlation_metadata` JSONB column contents
(correlate_events.py lines 266-271). -/
structure CorrelationMetadata where
  narrative_event_ids : List ℤ
  movement_event_ids : List ℤ
  evidence_summary : String
  detection_history : List HistEntry
deriving DecidableEq, Repr

/-- A row of the `alerts` table, restricted to the columns the engine
touches.  `threat_level` and `correlation_metadata` are `Option` because
`upsert_alert` reads them through `dict.get` with a default;
`resolved_at = none` means the alert is unresolved (SQL `NULL`). -/
structure Alert where
  id : ℤ
  region : String
  threat_level : Option String
  threat_score : ℚ
  confidence : ℤ
  sub_scores : SubScores
  correlation_metadata : Option CorrelationMetadata
  resolved_at : Option ℚ
  updated_at : ℚ
deriving DecidableEq, Repr

/-- The query of `upsert_alert` (correlate_events.py lines 210-216):
`alerts` rows with `region = "Taiwan Strait"` and `resolved_at IS NULL`,
in table order. -/
def unresolvedTaiwanQuery (alerts : List Alert) : List Alert :=
  alerts.filter fun a => a.region == "Taiwan Strait" && a.resolved_at.isNone

/-- The update branch of `upsert_alert` once the transition check has
passed (correlate_events.py lines 256-277): append the new history entry
to the existing one and overwrite the row with matching `id`. -/
def applyAlertUpdate (now : ℚ) (correlation : CorrelationResult)
    (alerts : List Alert) (existing_alert : Alert) : List Alert :=
  let entry : HistEntry :=
    { detected_at := correlation.detected_at
      score := correlation.composite_score
      level := correlation.threat_level }
  let existing_history :=
    ((existing_alert.correlation_metadata.map (·.detection_history)).getD []) ++ [entry]
  alerts.map fun a =>
    if a.id == existing_alert.id then
      { a with
        threat_level := some correlation.threat_level
        threat_score := correlation.composite_score
        confidence := correlation.confidence
        sub_scores := correlation.sub_scores
        correlation_metadata := some
          { narrative_event_ids := correlation.narrative_event_ids
            movement_event_ids := correlation.movement_event_ids
            evidence_summary := correlation.evidence_summary
            detection_history := existing_history }
        updated_at := now }
    else a

/-- Function `upsert_alert` (correlate_events.py lines 201-310), as a pure
transformer of the `alerts` table.  `freshId` stands for the row id the
database would assign on insert; `now` is `datetime.now()` on the hour
scale.  `Except.error ()` models the uncaught `KeyError` raised by
`ThreatLevel[correlation.threat_level]` (line 244) when the incoming
level string is not a member name; the lookup of the *stored* level
(lines 233-241) is wrapped in `try/except` and defaults to GREEN. -/
def upsert_alert (now : ℚ) (freshId : ℤ) (correlation : CorrelationResult)
    (alerts : List Alert) : Except Unit (List Alert) :=
  let entry : HistEntry :=
    { detected_at := correlation.detected_at
      score := correlation.composite_score
      level := correlation.threat_level }
  match unresolvedTaiwanQuery alerts with
  | existing_alert :: _ =>
    let current_level_str := existing_alert.threat_level.getD "GREEN"
    let current_level := (ThreatLevel.fromName? current_level_str).getD .GREEN
    match ThreatLevel.fromName? correlation.threat_level with
    | none => .error ()
    | some new_level =>
      if ¬ current_level.can_transition_to new_level then
        .ok alerts
      else
        .ok (applyAlertUpdate now correlation alerts existing_alert)
  | [] =>
    .ok (alerts ++
      [{ id := freshId
         region := correlation.region
         threat_level := some correlation.threat_level
         threat_score := correlation.composite_score
         confidence := correlation.confidence
         sub_scores := correlation.sub_scores
         correlation_metadata := some
           { narrative_event_ids := correlation.narrative_event_ids
             movement_event_ids := correlation.movement_event_ids
             evidence_summary := correlation.evidence_summary
             detection_history := [entry] }
         resolved_at := none
         updated_at := now }])

/-! ## Batch orchestrator (`correlate_events_batch`) -/

/-- Construction of one candidate `CorrelationResult` for a temporal
match (correlate_events.py lines 357-401): geo corroboration from both
streams, composite score, evidence summary; `threat_level` and
`confidence` are placeholders until selection. -/
def buildCorrelation (now : ℚ) (narrative : NarrativeEvent)
    (movements : List MovementEvent) : CorrelationResult :=
  let narrative_geo := check_narrative_geo_match narrative.geographic_focus
  let movement_geo := movements.any fun movement =>
    match movement.location_lat, movement.location_lon with
    | some lat, some lon => is_in_taiwan_strait lat lon
    | _, _ => false
  let geo_match := narrative_geo && movement_geo
  let scored := calculate_composite_score narrative movements geo_match
  { narrative_event_ids := [narrative.id]
    movement_event_ids := movements.map (·.id)
    composite_score := scored.1
    sub_scores := scored.2
    threat_level := ""
    confidence := 0
    geo_match := geo_match
    region := "Taiwan Strait"
    evidence_summary := build_evidence_summary narrative movements
    detected_at := now }

/-- The candidate list of step 3 of `correlate_events_batch`
(correlate_events.py lines 355-401). -/
def buildCorrelations (now : ℚ) (pairs : List MatchPair) : List CorrelationResult :=
  pairs.map fun m => buildCorrelation now m.narrative m.movements

/-- Python's `max(items, key=key)` scan: replace the running best only
on a strictly greater key, so the first-encountered maximal element
wins.  `best` is the running value, the list the remaining items. -/
def pythonMaxBy {α : Type} (key : α → ℚ) : α → List α → α
  | best, [] => best
  | best, x :: rest => pythonMaxBy key (if key x > key best then x else best) rest

/-- Step 5 of `correlate_events_batch` (correlate_events.py lines
410-420): set threat level and confidence on the selected correlation. -/
def finalizeCorrelation (c : CorrelationResult) : CorrelationResult :=
  { c with
    threat_level := (determine_threat_level c.composite_score).name
    confidence := calculate_confidence (c.narrative_event_ids.length : ℤ)
      (c.movement_event_ids.length : ℤ) c.geo_match }

/-- The summary dict returned by `correlate_events_batch`.  `success`
carries `correlations_found`, `highest_score`, `threat_level` and
`confidence`; `error` models the `except Exception` handler. -/
inductive BatchSummary where
  | no_narrative_events
  | no_movement_events
  | no_temporal_matches
  | no_correlations
  | success (correlations_found : ℕ) (highest_score : ℚ)
      (threat_level : ThreatLevel) (confidence : ℤ)
  | error
deriving DecidableEq, Repr

/-- Function `correlate_events_batch` (correlate_events.py lines 313-439), with
the two fetches replaced by the fetched lists and the database state
threaded explicitly.  Any exception raised inside (a `ValueError` from
timestamp parsing, a `KeyError` from the upsert) is caught by the
surrounding `try/except`, which returns the `error` status; in that case
no alert mutation has happened. -/
def correlate_events_batch (now : ℚ) (freshId : ℤ)
    (narrative_events : List NarrativeEvent) (movement_events : List MovementEvent)
    (alerts : List Alert) : BatchSummary × List Alert :=
  if narrative_events.isEmpty then (.no_narrative_events, alerts)
  else if movement_events.isEmpty then (.no_movement_events, alerts)
  else
    match match_events_by_time_window narrative_events movement_events
        CORRELATION_WINDOW_HOURS with
    | .error _ => (.error, alerts)
    | .ok pairs =>
      if pairs.isEmpty then (.no_temporal_matches, alerts)
      else
        match buildCorrelations now pairs with
        | [] => (.no_correlations, alerts)
        | c :: rest =>
          let highest_correlation :=
            pythonMaxBy (fun c => c.composite_score) c rest
          let finalized := finalizeCorrelation highest_correlation
          match upsert_alert now freshId finalized alerts with
          | .error _ => (.error, alerts)
          | .ok alerts' =>
            (.success (c :: rest).length finalized.composite_score
              (determine_threat_level highest_correlation.composite_score)
              finalized.confidence, alerts')

/-! ## Specification-side restatement of the Event Matcher

Used only to compare the implementation against the spec's wording. -/

/-- The Event Matcher contract as the specification words it: for every
narrative event keep exactly the movement events whose absolute time
difference is at most `window_hours` (boundary inclusive, symmetric);
drop narrative events with zero matches; preserve both input orders.
Events without a parseable timestamp contribute nothing. -/
def matchSpecWindow (narrative_events : List NarrativeEvent)
    (movement_events : List MovementEvent) (window_hours : ℚ) : List MatchPair :=
  narrative_events.filterMap fun n =>
    match n.created_at with
    | .valid t =>
      let kept := movement_events.filter fun m =>
        match m.created_at with
        | .valid u => decide (|t - u| ≤ window_hours)
        | _ => false
      if kept.isEmpty then none else some ⟨n, kept⟩
    | _ => none

/-! ## Concrete fixtures for witness statements -/

/-- Fixture: a minimal narrative event with a parseable timestamp. -/
def wNarr : NarrativeEvent := ⟨1, .valid 0, none, none, none⟩

/-- Fixture: a narrative event whose `created_at` string is present but
unparseable. -/
def badNarr : NarrativeEvent := ⟨99, .malformed, none, none, none⟩

/-- Fixture: a minimal movement event one hour after `wNarr`. -/
def wMove : MovementEvent := ⟨10, .valid 1, none, none⟩

/-- Fixture: a movement event with an unparseable timestamp. -/
def badMove : MovementEvent := ⟨98, .malformed, none, none⟩

/-- Fixture: an unresolved RED alert for the Taiwan Strait. -/
def redAlert : Alert :=
  { id := 7
    region := "Taiwan Strait"
    threat_level := some "RED"
    threat_score := 80
    confidence := 90
    sub_scores := ⟨1, 2, 3, 4⟩
    correlation_metadata := some ⟨[1], [2], "s", [⟨0, 80, "RED"⟩]⟩
    resolved_at := none
    updated_at := 0 }

/-- Fixture: an unresolved alert whose stored `threat_level` string is
not a `ThreatLevel` member name. -/
def corruptAlert : Alert :=
  { id := 8
    region := "Taiwan Strait"
    threat_level := some "PURPLE"
    threat_score := 80
    confidence := 90
    sub_scores := ⟨1, 2, 3, 4⟩
    correlation_metadata := some ⟨[1], [2], "s", [⟨0, 80, "RED"⟩]⟩
    resolved_at := none
    updated_at := 0 }

/-- Fixture: an AMBER-level correlation result. -/
def amberCorr : CorrelationResult :=
  ⟨[1], [2, 3], 50, ⟨5, 6, 7, 8⟩, "AMBER", 55, true, "Taiwan Strait", "ev", 1⟩

/-- Fixture: a GREEN-level correlation result. -/
def greenCorr : CorrelationResult :=
  ⟨[1], [2], 20, ⟨1, 1, 1, 1⟩, "GREEN", 30, false, "Taiwan Strait", "ev", 1⟩

/-! ## Theorems -/

/-- C2: `determine_threat_level` maps a composite score to GREEN exactly
below 30, to AMBER exactly on [30, 70), and to RED exactly at and above
70; in particular 29 ↦ GREEN, 30 ↦ AMBER, 69 ↦ AMBER, 70 ↦ RED
(thresholds boundary-inclusive on the upper side). -/
theorem C2_threat_level_thresholds (s : ℚ) :
    (determine_threat_level s = .GREEN ↔ s < 30) ∧
    (determine_threat_level s = .AMBER ↔ 30 ≤ s ∧ s < 70) ∧
    (determine_threat_level s = .RED ↔ 70 ≤ s) ∧
    determine_threat_level 29 = .GREEN ∧
    determine_threat_level 30 = .AMBER ∧
    determine_threat_level 69 = .AMBER ∧
    determine_threat_level 70 = .RED := by
  refine ⟨?_, ?_, ?_, by decide, by decide, by decide, by decide⟩ <;>
  · unfold determine_threat_level GREEN_THRESHOLD RED_THRESHOLD
    split_ifs with h1 h2 <;> simp_all <;> linarith

/-- C4, counterexample: the point (lat 23, lon 120) lies exactly on the
southern edge of the Taiwan Strait bounding box, but
`is_in_taiwan_strait` returns `false` for it — Shapely's `contains`
excludes boundary points, so the claim's "boundary points included" is
false on the code. -/
theorem C4_boundary_point_rejected : is_in_taiwan_strait 23 120 = false := by
  decide

/-- C4, amended: `is_in_taiwan_strait(lat, lon)` is true iff the point
lies strictly inside the fixed rectangular bounding box
(23 < lat < 26 and 118 < lon < 122); points exactly on a box edge are
outside, because Shapely `contains` tests interior containment. -/
theorem C4_strict_interior (lat lon : ℚ) :
    is_in_taiwan_strait lat lon = true ↔
      23 < lat ∧ lat < 26 ∧ 118 < lon ∧ lon < 122 := by
  simp only [is_in_taiwan_strait, shapelyBoxContainsPoint, TAIWAN_STRAIT_BBOX,
    decide_eq_true_eq]
  tauto

/-- C3, counterexample: with narrative_count = 3 and geo_match = true,
raising movement_count from 5 to 6 — movement input still below its own
cap, since 5 * 5 = 25 < 30 — does not strictly increase the confidence:
both sides hit the overall 95 cap. -/
theorem C3_strictness_fails_at_cap :
    (5 : ℤ) * 5 < 30 ∧
    calculate_confidence 3 5 true = 95 ∧
    calculate_confidence 3 6 true = 95 ∧
    ¬ calculate_confidence 3 5 true < calculate_confidence 3 6 true := by
  decide

/-- C3, amended: for non-negative inputs, `calculate_confidence` returns
an integer in [0, 95] and is monotonically non-decreasing in each of its
three inputs; it strictly increases when narrative_count,
movement_count, or geo_match individually increase while the varied
input is below its respective cap AND the confidence has not already
reached the overall 95 cap. -/
theorem C3_confidence_bounds_monotone (n n' m m' : ℤ) (g : Bool)
    (hn0 : 0 ≤ n) (hm0 : 0 ≤ m) (hn : n ≤ n') (hm : m ≤ m') :
    (0 ≤ calculate_confidence n m g ∧ calculate_confidence n m g ≤ 95) ∧
    calculate_confidence n m g ≤ calculate_confidence n' m' g ∧
    calculate_confidence n m false ≤ calculate_confidence n m true ∧
    (n * 15 < 40 → calculate_confidence n m g < 95 →
      calculate_confidence n m g < calculate_confidence (n + 1) m g) ∧
    (m * 5 < 30 → calculate_confidence n m g < 95 →
      calculate_confidence n m g < calculate_confidence n (m + 1) g) ∧
    (calculate_confidence n m false < 95 →
      calculate_confidence n m false < calculate_confidence n m true) := by
  cases g <;>
    simp only [calculate_confidence, narrative_confidence, Bool.false_eq_true,
      if_false, if_true, reduceIte] <;>
    omega

/-- Witness for `C3_confidence_bounds_monotone` at n = 1, n' = 2, m = 2,
m' = 3, geo_match = true. -/
theorem C3_confidence_bounds_monotone_witness :
    ((0 : ℤ) ≤ 1 ∧ (0 : ℤ) ≤ 2 ∧ (1 : ℤ) ≤ 2 ∧ (2 : ℤ) ≤ 3) ∧
    ((0 ≤ calculate_confidence 1 2 true ∧ calculate_confidence 1 2 true ≤ 95) ∧
    calculate_confidence 1 2 true ≤ calculate_confidence 2 3 true ∧
    calculate_confidence 1 2 false ≤ calculate_confidence 1 2 true ∧
    ((1 : ℤ) * 15 < 40 → calculate_confidence 1 2 true < 95 →
      calculate_confidence 1 2 true < calculate_confidence (1 + 1) 2 true) ∧
    ((2 : ℤ) * 5 < 30 → calculate_confidence 1 2 true < 95 →
      calculate_confidence 1 2 true < calculate_confidence 1 (2 + 1) true) ∧
    (calculate_confidence 1 2 false < 95 →
      calculate_confidence 1 2 false < calculate_confidence 1 2 true)) :=
  ⟨⟨by decide, by decide, by decide, by decide⟩,
    C3_confidence_bounds_monotone 1 2 2 3 true (by decide) (by decide)
      (by decide) (by decide)⟩

/-- C1: `can_transition_to` is true exactly when the target level sits
at or above the current level in the chain GREEN < AMBER < RED (the
`Enum` values 1 < 2 < 3); and when `upsert_alert` runs against an
existing unresolved alert whose stored threat level is strictly higher
than the incoming one, the alerts table is returned completely
unchanged — every stored field keeps its prior value and no
detection_history entry is appended. -/
theorem C1_monotonic_escalation_gate :
    (∀ a b : ThreatLevel, a.can_transition_to b = true ↔ a.value ≤ b.value) ∧
    ∀ (now : ℚ) (freshId : ℤ) (corr : CorrelationResult)
      (alerts rest : List Alert) (a : Alert) (cur incoming : ThreatLevel),
      unresolvedTaiwanQuery alerts = a :: rest →
      ThreatLevel.fromName? (a.threat_level.getD "GREEN") = some cur →
      ThreatLevel.fromName? corr.threat_level = some incoming →
      incoming.value < cur.value →
      upsert_alert now freshId corr alerts = .ok alerts := by
  constructor
  · intro a b
    cases a <;> cases b <;> decide
  · intro now freshId corr alerts rest a cur incoming hq hcur hinc hlt
    have hgate : cur.can_transition_to incoming = false := by
      simp only [ThreatLevel.can_transition_to, decide_eq_false_iff_not]
      omega
    unfold upsert_alert
    rw [hq]
    simp only [hcur, hinc, Option.getD_some, hgate, Bool.false_eq_true,
      not_false_eq_true, if_true]

/-- Witness for `C1_monotonic_escalation_gate`: a stored RED alert and
an incoming AMBER correlation leave the table untouched. -/
theorem C1_monotonic_escalation_gate_witness :
    (unresolvedTaiwanQuery [redAlert] = redAlert :: [] ∧
     ThreatLevel.fromName? (redAlert.threat_level.getD "GREEN") = some .RED ∧
     ThreatLevel.fromName? amberCorr.threat_level = some .AMBER ∧
     ThreatLevel.AMBER.value < ThreatLevel.RED.value) ∧
    upsert_alert 2 99 amberCorr [redAlert] = .ok [redAlert] :=
  ⟨⟨rfl, rfl, rfl, by decide⟩,
    C1_monotonic_escalation_gate.2 2 99 amberCorr [redAlert] [] redAlert
      .RED .AMBER rfl rfl rfl (by decide)⟩

/-- C9: when the stored `threat_level` string of the existing unresolved
alert is not a `ThreatLevel` member name, `upsert_alert` falls back to
GREEN for the transition check, so any parseable incoming level —
including GREEN itself — is accepted and the update branch runs: the
de-escalation gate is bypassed for corrupt rows. -/
theorem C9_corrupt_level_bypasses_gate (now : ℚ) (freshId : ℤ)
    (corr : CorrelationResult) (alerts rest : List Alert) (a : Alert)
    (incoming : ThreatLevel)
    (hq : unresolvedTaiwanQuery alerts = a :: rest)
    (hbad : ThreatLevel.fromName? (a.threat_level.getD "GREEN") = none)
    (hinc : ThreatLevel.fromName? corr.threat_level = some incoming) :
    upsert_alert now freshId corr alerts = .ok (applyAlertUpdate now corr alerts a) := by
  have hgate : ThreatLevel.GREEN.can_transition_to incoming = true := by
    cases incoming <;> decide
  unfold upsert_alert
  rw [hq]
  simp only [hbad, hinc, Option.getD_none, hgate, not_true_eq_false, if_false]

/-- Witness for `C9_corrupt_level_bypasses_gate`: a stored "PURPLE"
alert accepts an incoming GREEN result. -/
theorem C9_corrupt_level_bypasses_gate_witness :
    (unresolvedTaiwanQuery [corruptAlert] = corruptAlert :: [] ∧
     ThreatLevel.fromName? (corruptAlert.threat_level.getD "GREEN") = none ∧
     ThreatLevel.fromName? greenCorr.threat_level = some .GREEN) ∧
    upsert_alert 2 99 greenCorr [corruptAlert] =
      .ok (applyAlertUpdate 2 greenCorr [corruptAlert] corruptAlert) :=
  ⟨⟨rfl, rfl, rfl⟩,
    C9_corrupt_level_bypasses_gate 2 99 greenCorr [corruptAlert] [] corruptAlert
      .GREEN rfl rfl rfl⟩

/-- Helper: on movement lists free of malformed timestamps, the inner
matcher loop succeeds and keeps exactly the movement events (in input
order) whose timestamp lies within the window. -/
theorem matchMovements_ok (t w : ℚ) (ms : List MovementEvent)
    (h : ∀ m ∈ ms, m.created_at ≠ TsField.malformed) :
    matchMovements t w ms = .ok (ms.filter fun m =>
      match m.created_at with
      | .valid u => decide (|t - u| ≤ w)
      | _ => false) := by
  induction ms with
  | nil => rfl
  | cons m rest ih =>
    have hrest := ih fun x hx => h x (List.mem_cons_of_mem _ hx)
    cases hm : m.created_at with
    | missing =>
      simp only [matchMovements, hm, hrest, List.filter_cons]
      rfl
    | malformed => exact absurd hm (h m (List.mem_cons_self _ _))
    | valid u =>
      simp only [matchMovements, hm, hrest, List.filter_cons]
      by_cases hw : |t - u| ≤ w
      · simp [hw]
      · simp [hw]

/-- C6: on inputs free of malformed timestamps, the implemented matcher
equals the specification matcher: every narrative event is paired with
exactly the movement events whose absolute time difference is ≤
`window_hours` (inclusive boundary, symmetric in time), narrative events
with zero matches are dropped, and both the narrative order and each
matched-movement list's order follow the input order. -/
theorem C6_matcher_refines_spec (ns : List NarrativeEvent)
    (ms : List MovementEvent) (w : ℚ)
    (hn : ∀ n ∈ ns, n.created_at ≠ TsField.malformed)
    (hm : ∀ m ∈ ms, m.created_at ≠ TsField.malformed) :
    match_events_by_time_window ns ms w = .ok (matchSpecWindow ns ms w) := by
  induction ns with
  | nil => rfl
  | cons n rest ih =>
    have hrest := ih fun x hx => hn x (List.mem_cons_of_mem _ hx)
    cases hc : n.created_at with
    | missing =>
      simp only [match_events_by_time_window, hc, hrest, matchSpecWindow,
        List.filterMap_cons]
    | malformed => exact absurd hc (hn n (List.mem_cons_self _ _))
    | valid t =>
      simp only [match_events_by_time_window, hc, matchMovements_ok t w ms hm,
        hrest, matchSpecWindow, List.filterMap_cons]
      by_cases he : (ms.filter fun m =>
          match m.created_at with
          | .valid u => decide (|t - u| ≤ w)
          | _ => false).isEmpty
      · simp [he]
      · simp [he]

/-- Witness for `C6_matcher_refines_spec`: one narrative event at hour 0
against movements at hours 72 (exactly on the boundary — kept), 100
(outside — dropped) and −3 (before the narrative event — kept),
with window 72. -/
theorem C6_matcher_refines_spec_witness :
    ((∀ n ∈ [wNarr], n.created_at ≠ TsField.malformed) ∧
     (∀ m ∈ [wMove, MovementEvent.mk 11 (.valid 100) none none,
        MovementEvent.mk 12 (.valid (-3)) none none],
        m.created_at ≠ TsField.malformed)) ∧
    match_events_by_time_window [wNarr]
      [wMove, MovementEvent.mk 11 (.valid 100) none none,
        MovementEvent.mk 12 (.valid (-3)) none none] 72 =
      .ok (matchSpecWindow [wNarr]
        [wMove, MovementEvent.mk 11 (.valid 100) none none,
          MovementEvent.mk 12 (.valid (-3)) none none] 72) :=
  ⟨⟨by decide, by decide⟩,
    C6_matcher_refines_spec _ _ _ (by decide) (by decide)⟩

/-- Helper: `normalize_min_max` never returns below 0. -/
theorem normalize_min_max_nonneg (v lo hi : ℚ) : 0 ≤ normalize_min_max v lo hi := by
  unfold normalize_min_max
  split_ifs
  · norm_num
  · exact le_max_left 0 _

/-- Helper: `normalize_min_max` never returns above 100. -/
theorem normalize_min_max_le_100 (v lo hi : ℚ) : normalize_min_max v lo hi ≤ 100 := by
  unfold normalize_min_max
  split_ifs
  · norm_num
  · exact max_le (by norm_num) (min_le_left _ _)

/-- C7: `calculate_composite_score` returns four sub-scores each in
[0, 100] and a composite in [0, 100]; the composite equals exactly the
fixed weighted sum outlet×0.30 + phrase×0.25 + volume×0.20 + geo×0.25
(the Python float weights modelled as exact rationals); the first three
sub-scores are min-max normalizations over the fixed bounds (outlet
1–4, phrase 0–10, volume 0–50) and geo_score is 100 if geo_match else
0. -/
theorem C7_composite_weighted_sum (n : NarrativeEvent)
    (ms : List MovementEvent) (g : Bool) :
    (0 ≤ (calculate_composite_score n ms g).2.outlet_score ∧
      (calculate_composite_score n ms g).2.outlet_score ≤ 100) ∧
    (0 ≤ (calculate_composite_score n ms g).2.phrase_score ∧
      (calculate_composite_score n ms g).2.phrase_score ≤ 100) ∧
    (0 ≤ (calculate_composite_score n ms g).2.volume_score ∧
      (calculate_composite_score n ms g).2.volume_score ≤ 100) ∧
    (0 ≤ (calculate_composite_score n ms g).2.geo_score ∧
      (calculate_composite_score n ms g).2.geo_score ≤ 100) ∧
    (0 ≤ (calculate_composite_score n ms g).1 ∧
      (calculate_composite_score n ms g).1 ≤ 100) ∧
    (calculate_composite_score n ms g).1 =
      (calculate_composite_score n ms g).2.outlet_score * (30 / 100)
        + (calculate_composite_score n ms g).2.phrase_score * (25 / 100)
        + (calculate_composite_score n ms g).2.volume_score * (20 / 100)
        + (calculate_composite_score n ms g).2.geo_score * (25 / 100) ∧
    (calculate_composite_score n ms g).2.outlet_score =
      normalize_min_max (n.outlet_count.getD 1) 1 4 ∧
    (calculate_composite_score n ms g).2.phrase_score =
      normalize_min_max ((n.synchronized_phrases.getD []).length : ℚ) 0 10 ∧
    (calculate_composite_score n ms g).2.volume_score =
      normalize_min_max (ms.length : ℚ) 0 50 ∧
    (calculate_composite_score n ms g).2.geo_score =
      (if g then 100 else 0) := by
  have ho1 := normalize_min_max_nonneg (n.outlet_count.getD 1) OUTLET_MIN OUTLET_MAX
  have ho2 := normalize_min_max_le_100 (n.outlet_count.getD 1) OUTLET_MIN OUTLET_MAX
  have hp1 := normalize_min_max_nonneg
    ((n.synchronized_phrases.getD []).length : ℚ) PHRASE_MIN PHRASE_MAX
  have hp2 := normalize_min_max_le_100
    ((n.synchronized_phrases.getD []).length : ℚ) PHRASE_MIN PHRASE_MAX
  have hv1 := normalize_min_max_nonneg (ms.length : ℚ) VOLUME_MIN VOLUME_MAX
  have hv2 := normalize_min_max_le_100 (ms.length : ℚ) VOLUME_MIN VOLUME_MAX
  have hg1 : (0 : ℚ) ≤ (if g then 100 else 0) := by split_ifs <;> norm_num
  have hg2 : (if g then (100 : ℚ) else 0) ≤ 100 := by split_ifs <;> norm_num
  simp only [calculate_composite_score, OUTLET_MIN, OUTLET_MAX, PHRASE_MIN,
    PHRASE_MAX, VOLUME_MIN, VOLUME_MAX, WEIGHTS] at *
  refine ⟨⟨ho1, ho2⟩, ⟨hp1, hp2⟩, ⟨hv1, hv2⟩, ⟨hg1, hg2⟩, ⟨?_, ?_⟩,
    trivial, trivial, trivial, trivial, trivial⟩
  · positivity
  · nlinarith

/-- Helper: looking a member name back up yields the member. -/
theorem ThreatLevel.fromName_name (l : ThreatLevel) :
    ThreatLevel.fromName? l.name = some l := by
  cases l <;> rfl

/-- Helper: the Python `max` scan is the `argAux` fold of
`List.argmax`. -/
theorem foldl_argAux_pythonMaxBy {α : Type} (key : α → ℚ) (xs : List α) :
    ∀ b : α, List.foldl (List.argAux fun b c => key c < key b) (some b) xs
      = some (pythonMaxBy key b xs) := by
  induction xs with
  | nil => intro b; rfl
  | cons y ys ih =>
    intro b
    rw [List.foldl_cons]
    have hstep : List.argAux (fun b c => key c < key b) (some b) y
        = some (if key y > key b then y else b) := by
      by_cases h : key b < key y
      · simp [List.argAux, h, gt_iff_lt]
      · simp [List.argAux, h, gt_iff_lt]
    rw [hstep, ih]
    conv_rhs => rw [pythonMaxBy]

/-- Helper: on a non-empty list, Python's `max(…, key=…)` computes
`List.argmax`. -/
theorem argmax_eq_pythonMaxBy {α : Type} (key : α → ℚ) (x : α) (xs : List α) :
    List.argmax key (x :: xs) = some (pythonMaxBy key x xs) := by
  have h0 : List.argAux (fun b c => key c < key b) none x = some x := rfl
  simp only [List.argmax, List.foldl_cons, h0]
  exact foldl_argAux_pythonMaxBy key xs x

/-- Helper: the element Python's `max` picks is a maximal element of the
list, and among the maximal elements it is the first-encountered one. -/
theorem pythonMaxBy_first_max {α : Type} [DecidableEq α] (key : α → ℚ)
    (x : α) (xs : List α) :
    pythonMaxBy key x xs ∈ x :: xs ∧
    (∀ c ∈ x :: xs, key c ≤ key (pythonMaxBy key x xs)) ∧
    (∀ c ∈ x :: xs, key (pythonMaxBy key x xs) ≤ key c →
      (x :: xs).indexOf (pythonMaxBy key x xs) ≤ (x :: xs).indexOf c) := by
  have h := argmax_eq_pythonMaxBy key x xs
  rw [List.argmax_eq_some_iff] at h
  exact h

/-- Helper: `upsert_alert` never raises when the incoming threat level
string parses to a `ThreatLevel` member. -/
theorem upsert_alert_ok (now : ℚ) (freshId : ℤ) (corr : CorrelationResult)
    (alerts : List Alert) (lvl : ThreatLevel)
    (h : ThreatLevel.fromName? corr.threat_level = some lvl) :
    ∃ alerts', upsert_alert now freshId corr alerts = .ok alerts' := by
  unfold upsert_alert
  cases hq : unresolvedTaiwanQuery alerts with
  | nil => exact ⟨_, rfl⟩
  | cons a rest =>
    simp only [h]
    split_ifs
    · exact ⟨_, rfl⟩
    · exact ⟨_, rfl⟩

/-- C8: whenever a correlation pass reaches selection (both streams
non-empty, matching succeeded, at least one temporal match), there is
exactly one selected correlation: it is a maximum-composite-score
candidate and, among candidates of maximal score, the first-encountered
one (smallest index) — and the pass's result is fully determined by it:
it alone is finalized with a threat level and confidence and passed to
the alert upsert, while every other candidate is discarded. -/
theorem C8_first_max_selected (now : ℚ) (freshId : ℤ)
    (ns : List NarrativeEvent) (ms : List MovementEvent)
    (alerts : List Alert) (pairs : List MatchPair)
    (hns : ns ≠ []) (hms : ms ≠ [])
    (hmatch : match_events_by_time_window ns ms CORRELATION_WINDOW_HOURS = .ok pairs)
    (hpairs : pairs ≠ []) :
    ∃ sel alerts',
      sel ∈ buildCorrelations now pairs ∧
      (∀ c ∈ buildCorrelations now pairs,
        c.composite_score ≤ sel.composite_score) ∧
      (∀ c ∈ buildCorrelations now pairs,
        sel.composite_score ≤ c.composite_score →
        (buildCorrelations now pairs).indexOf sel ≤
          (buildCorrelations now pairs).indexOf c) ∧
      upsert_alert now freshId (finalizeCorrelation sel) alerts = .ok alerts' ∧
      correlate_events_batch now freshId ns ms alerts =
        (.success (buildCorrelations now pairs).length sel.composite_score
          (determine_threat_level sel.composite_score)
          (finalizeCorrelation sel).confidence, alerts') := by
  cases ns with
  | nil => exact absurd rfl hns
  | cons n0 ns' =>
  cases ms with
  | nil => exact absurd rfl hms
  | cons m0 ms' =>
  cases pairs with
  | nil => exact absurd rfl hpairs
  | cons p prest =>
  have hLcons : buildCorrelations now (p :: prest) =
      buildCorrelation now p.narrative p.movements ::
        buildCorrelations now prest := rfl
  have hprops := pythonMaxBy_first_max (fun c : CorrelationResult => c.composite_score)
    (buildCorrelation now p.narrative p.movements) (buildCorrelations now prest)
  have hparse : ThreatLevel.fromName?
      (finalizeCorrelation (pythonMaxBy (fun c : CorrelationResult => c.composite_score)
        (buildCorrelation now p.narrative p.movements)
        (buildCorrelations now prest))).threat_level =
      some (determine_threat_level
        (pythonMaxBy (fun c : CorrelationResult => c.composite_score)
          (buildCorrelation now p.narrative p.movements)
          (buildCorrelations now prest)).composite_score) := by
    simp only [finalizeCorrelation]
    exact ThreatLevel.fromName_name _
  obtain ⟨alerts', hup⟩ := upsert_alert_ok now freshId _ alerts _ hparse
  refine ⟨pythonMaxBy (fun c : CorrelationResult => c.composite_score)
    (buildCorrelation now p.narrative p.movements) (buildCorrelations now prest),
    alerts', ?_, ?_, ?_, hup, ?_⟩
  · rw [hLcons]; exact hprops.1
  · rw [hLcons]; exact hprops.2.1
  · rw [hLcons]; exact hprops.2.2
  · simp only [correlate_events_batch, List.isEmpty_cons, hmatch, hLcons,
      Bool.false_eq_true, if_false, hup]
    rfl

/-- Witness for `C8_first_max_selected`: one narrative event, one
movement event one hour apart, an existing RED alert in store. -/
theorem C8_first_max_selected_witness :
    (([wNarr] : List NarrativeEvent) ≠ [] ∧
     ([wMove] : List MovementEvent) ≠ [] ∧
     match_events_by_time_window [wNarr] [wMove] CORRELATION_WINDOW_HOURS =
       .ok [⟨wNarr, [wMove]⟩] ∧
     ([⟨wNarr, [wMove]⟩] : List MatchPair) ≠ []) ∧
    (∃ sel alerts',
      sel ∈ buildCorrelations 5 [⟨wNarr, [wMove]⟩] ∧
      (∀ c ∈ buildCorrelations 5 [⟨wNarr, [wMove]⟩],
        c.composite_score ≤ sel.composite_score) ∧
      (∀ c ∈ buildCorrelations 5 [⟨wNarr, [wMove]⟩],
        sel.composite_score ≤ c.composite_score →
        (buildCorrelations 5 [⟨wNarr, [wMove]⟩]).indexOf sel ≤
          (buildCorrelations 5 [⟨wNarr, [wMove]⟩]).indexOf c) ∧
      upsert_alert 5 42 (finalizeCorrelation sel) [redAlert] = .ok alerts' ∧
      correlate_events_batch 5 42 [wNarr] [wMove] [redAlert] =
        (.success (buildCorrelations 5 [⟨wNarr, [wMove]⟩]).length
          sel.composite_score
          (determine_threat_level sel.composite_score)
          (finalizeCorrelation sel).confidence, alerts')) :=
  ⟨⟨List.cons_ne_nil _ _, List.cons_ne_nil _ _,
    by norm_num [match_events_by_time_window, matchMovements,
      CORRELATION_WINDOW_HOURS, wNarr, wMove],
    List.cons_ne_nil _ _⟩,
    C8_first_max_selected 5 42 [wNarr] [wMove] [redAlert] [⟨wNarr, [wMove]⟩]
      (List.cons_ne_nil _ _) (List.cons_ne_nil _ _)
      (by norm_num [match_events_by_time_window, matchMovements,
        CORRELATION_WINDOW_HOURS, wNarr, wMove])
      (List.cons_ne_nil _ _)⟩

/-- Helper: each candidate correlation carries exactly the one
narrative event id of its match pair. -/
theorem buildCorrelations_narrative_ids (now : ℚ) (pairs : List MatchPair)
    (c : CorrelationResult) (hc : c ∈ buildCorrelations now pairs) :
    c.narrative_event_ids.length = 1 := by
  obtain ⟨p, hp, rfl⟩ := List.mem_map.mp hc
  rfl

/-- C10: every candidate `CorrelationResult` built by the correlation
pass pairs exactly one narrative event (its `narrative_event_ids` has
length 1); hence the narrative term of `calculate_confidence` is
`min(1·15, 40) = 15` — strictly below the 40 cap — and any confidence
the pipeline reports comes from `calculate_confidence` applied with
narrative_count = 1. -/
theorem C10_single_narrative_per_candidate :
    (∀ (now : ℚ) (pairs : List MatchPair) (c : CorrelationResult),
      c ∈ buildCorrelations now pairs → c.narrative_event_ids.length = 1) ∧
    narrative_confidence 1 = 15 ∧
    narrative_confidence 1 < 40 ∧
    (∀ (m : ℤ) (g : Bool), calculate_confidence 1 m g =
      min (15 + min (m * 5) 30 + (if g then 20 else 0) + 10) 95) ∧
    (∀ (now : ℚ) (freshId : ℤ) (ns : List NarrativeEvent)
      (ms : List MovementEvent) (alerts : List Alert)
      (found : ℕ) (score : ℚ) (tl : ThreatLevel) (conf : ℤ)
      (alerts' : List Alert),
      correlate_events_batch now freshId ns ms alerts =
        (.success found score tl conf, alerts') →
      ∃ (mc : ℤ) (g : Bool), conf = calculate_confidence 1 mc g) := by
  refine ⟨buildCorrelations_narrative_ids, rfl, by decide, ?_, ?_⟩
  · intro m g
    simp only [calculate_confidence, narrative_confidence]
    norm_num
  · intro now freshId ns ms alerts found score tl conf alerts' h
    simp only [correlate_events_batch] at h
    split at h
    · simp at h
    split at h
    · simp at h
    split at h
    · simp at h
    split at h
    · simp at h
    split at h
    · simp at h
    next c rest heq =>
      split at h
      · simp at h
      next alerts2 hup =>
        simp only [Prod.mk.injEq, BatchSummary.success.injEq] at h
        obtain ⟨⟨hlen, hscore, htl, hconf⟩, halerts⟩ := h
        have hmem := (pythonMaxBy_first_max
          (fun c : CorrelationResult => c.composite_score) c rest).1
        rw [← heq] at hmem
        have h1 := buildCorrelations_narrative_ids _ _ _ hmem
        refine ⟨((pythonMaxBy (fun c : CorrelationResult => c.composite_score)
          c rest).movement_event_ids.length : ℤ),
          (pythonMaxBy (fun c : CorrelationResult => c.composite_score)
            c rest).geo_match, ?_⟩
        rw [← hconf]
        simp [finalizeCorrelation, h1]

set_option maxHeartbeats 1000000 in
/-- Witness for `C10_single_narrative_per_candidate`: the single
candidate of a one-pair pass has a one-element narrative id list, and a
concrete successful pass reports a confidence of the form
`calculate_confidence 1 _ _`. -/
theorem C10_single_narrative_per_candidate_witness :
    (buildCorrelation 5 wNarr [wMove] ∈ buildCorrelations 5 [⟨wNarr, [wMove]⟩] ∧
     (buildCorrelation 5 wNarr [wMove]).narrative_event_ids.length = 1) ∧
    (correlate_events_batch 5 42 [wNarr] [wMove] [redAlert] =
       (.success 1 (2/5) .GREEN 30, [redAlert]) ∧
     ∃ (mc : ℤ) (g : Bool), (30 : ℤ) = calculate_confidence 1 mc g) := by
  have hbatch : correlate_events_batch 5 42 [wNarr] [wMove] [redAlert] =
      (.success 1 (2/5) .GREEN 30, [redAlert]) := by
    norm_num [correlate_events_batch, match_events_by_time_window,
      matchMovements, CORRELATION_WINDOW_HOURS, buildCorrelations,
      buildCorrelation, check_narrative_geo_match, calculate_composite_score,
      normalize_min_max, OUTLET_MIN, OUTLET_MAX, PHRASE_MIN, PHRASE_MAX,
      VOLUME_MIN, VOLUME_MAX, WEIGHTS, finalizeCorrelation,
      determine_threat_level, GREEN_THRESHOLD, RED_THRESHOLD,
      calculate_confidence, narrative_confidence, upsert_alert,
      unresolvedTaiwanQuery, ThreatLevel.fromName?,
      ThreatLevel.can_transition_to, ThreatLevel.name, ThreatLevel.value,
      wNarr, wMove, redAlert, pythonMaxBy]
    rfl
  exact ⟨⟨List.mem_singleton_self _,
    C10_single_narrative_per_candidate.1 5 [⟨wNarr, [wMove]⟩]
      (buildCorrelation 5 wNarr [wMove]) (List.mem_singleton_self _)⟩,
   ⟨hbatch,
    C10_single_narrative_per_candidate.2.2.2.2 5 42 [wNarr] [wMove] [redAlert]
      1 (2/5) .GREEN 30 [redAlert] hbatch⟩⟩

/-- C5: behaviour of the code at a malformed timestamp, contradicting
the claim.  A narrative event whose `created_at` is present but
unparseable makes `match_events_by_time_window` raise (first conjunct),
and likewise for a movement event (second conjunct) — the single bad
event is not skipped.  The same inputs without the bad event correlate
fine (third conjunct), and in the full pass the raised `ValueError` is
only caught by the orchestrator's blanket handler, which aborts the
whole pass with status `error` and correlates none of the remaining
events (fourth conjunct).  No count of skipped events is surfaced
anywhere: only events with a missing/empty timestamp are skipped, and
they are not counted. -/
theorem C5_malformed_timestamp_aborts_pass :
    match_events_by_time_window [badNarr, wNarr] [wMove]
      CORRELATION_WINDOW_HOURS = .error () ∧
    match_events_by_time_window [wNarr] [badMove, wMove]
      CORRELATION_WINDOW_HOURS = .error () ∧
    match_events_by_time_window [wNarr] [wMove]
      CORRELATION_WINDOW_HOURS = .ok [⟨wNarr, [wMove]⟩] ∧
    correlate_events_batch 5 42 [badNarr, wNarr] [wMove] [redAlert] =
      (.error, [redAlert]) :=
  ⟨rfl, rfl,
    by norm_num [match_events_by_time_window, matchMovements,
      CORRELATION_WINDOW_HOURS, wNarr, wMove],
    rfl⟩

end DragonWatch
